import Mathlib

/-!
Verification of the notebook `src/examples/keras_convnet_example.ipynb`
(repository shyamalschandra/janggu).

The notebook is a linear glue script: it sets an output directory via an
environment variable, loads DNA-sequence and coverage-label datasets for a
training and a test chromosome through the janggu library, builds a small
keras convolutional model, fits it, predicts on the test set, wraps the
predictions into a coverage container, exports them to a bigwig track file,
and computes a ROC-AUC score.

We embed the notebook shallowly: every executable statement becomes an
element of a statement list `script`; library calls are constructors of
`LibCall` that record the exact arguments passed in the source.  The
statement language also offers conditionals, bounded loops and try/except
handlers, which the notebook never uses, so that claims about the absence of
branching and exception handling are claims about the source, not artifacts
of the embedding.  A small interpreter `runScript` executes a statement list
against an oracle deciding which library calls raise, and an oracle deciding
conditions; it emits the trace of library calls actually issued and the
uncaught exception, if any.
-/

namespace JangguConvnet

/-- Feature order of the one-hot DNA encoding; set by `order = 3` in the
notebook. -/
def order : Nat := 3

/-- Path of the reference genome, resolved in the notebook by
`resource_filename('janggu', 'resources/pseudo_genome.fa')`. -/
def REFGENOME : String := "janggu/resources/pseudo_genome.fa"

/-- Path of the training region-of-interest bed file
(`resources/roi_train.bed`). -/
def ROI_TRAIN_FILE : String := "janggu/resources/roi_train.bed"

/-- Path of the held-out test region-of-interest bed file
(`resources/roi_test.bed`). -/
def ROI_TEST_FILE : String := "janggu/resources/roi_test.bed"

/-- Path of the peak file holding the positive examples
(`resources/scores.bed`). -/
def PEAK_FILE : String := "janggu/resources/scores.bed"

/-- Arguments of a `Bioseq.create_from_refgenome` call.  `cache = none`
means the keyword argument was not passed. -/
structure BioseqArgs where
  dsname : String
  refgenome : String
  roi : String
  binsize : Nat
  order : Nat
  cache : Option Bool
deriving DecidableEq, Repr

/-- Arguments of a `Cover.create_from_bed` call.  `cache = none` means the
keyword argument was not passed. -/
structure CoverBedArgs where
  dsname : String
  roi : String
  bedfiles : String
  binsize : Nat
  resolution : Nat
  cache : Option Bool
  storage : String
deriving DecidableEq, Repr

/-- Keras activation functions used by the notebook. -/
inductive Activation where
  | relu
  | sigmoid
deriving DecidableEq, Repr

/-- Keras layers as instantiated by the notebook.  `dnaConv2D f kh kw a` is
a `DnaConv2D`-wrapped `Conv2D` with `f` filters, kernel `(kh, kw)` and
activation `a`. -/
inductive Layer where
  | inputLayer (shape : List Nat)
  | dnaConv2D (filters : Nat) (kernelH kernelW : Nat) (activation : Activation)
  | globalAveragePooling2D
  | dense (units : Nat) (activation : Activation)
deriving DecidableEq, Repr

/-- A string-valued argument expression: either a literal or a lookup of an
environment variable (`os.environ[key]`). -/
inductive StrExpr where
  | lit (s : String)
  | envGet (key : String)
deriving DecidableEq, Repr

/-- The library calls issued by the notebook, with the arguments recorded
verbatim from the source.  String arguments that name Python variables
(`"DNA"`, `"pred"`, ...) refer to the variables bound by earlier
assignments in the script. -/
inductive LibCall where
  | npRandomSeed (seed : Nat)
  | setEnv (key val : String)
  | bioseqCreateFromRefgenome (args : BioseqArgs)
  | coverCreateFromBed (args : CoverBedArgs) (reduceDim : Bool)
  | modelBuild (layers : List Layer)
  | modelCompile (optimizer loss : String) (metrics : List String)
  | modelSummary
  | modelFit (x y : String) (epochs : Nat)
  | modelPredict (x : String)
  | coverCreateFromArray (dsname arr gindexer : String)
  | exportToBigwig (target : String) (outputDir : StrExpr)
  | rocAucScore (labels preds : String)
  | printOut
deriving DecidableEq, Repr

/-- A statement of the embedded script: an assignment of a library-call
result to a variable (the empty string for a bare expression statement), or
one of the control structures Python offers and the notebook never uses.
Compound statements carry flat blocks of assignments. -/
inductive Stmt where
  | assign (v : String) (c : LibCall)
  | ifElse (cond : String) (thn els : List (String × LibCall))
  | forRange (n : Nat) (body : List (String × LibCall))
  | tryCatch (body handler : List (String × LibCall))
deriving DecidableEq, Repr

/-- Result of running (part of) the script: the trace of library calls
issued, and the call whose exception escaped uncaught, if any. -/
structure RunResult where
  trace : List LibCall
  error : Option LibCall
deriving DecidableEq, Repr

/-- Run a flat block of assignments: issue each call in order, stopping at
the first call the oracle `fails` marks as raising. -/
def runCalls (fails : LibCall → Bool) : List (String × LibCall) → RunResult
  | [] => ⟨[], none⟩
  | (_, c) :: rest =>
    if fails c then ⟨[c], some c⟩
    else
      let r := runCalls fails rest
      ⟨c :: r.trace, r.error⟩

/-- Sequential composition of run results: if the first part raised, the
second is never executed. -/
def seqR (a b : RunResult) : RunResult :=
  match a.error with
  | some _ => a
  | none => ⟨a.trace ++ b.trace, b.error⟩

/-- Iterate a run result `n` times in sequence (semantics of a loop whose
body has no state the oracle can observe). -/
def seqPow (r : RunResult) : Nat → RunResult
  | 0 => ⟨[], none⟩
  | n + 1 => seqR r (seqPow r n)

/-- Run a single statement.  `cond` is an oracle deciding branch
conditions; `fails` marks the library calls that raise.  Exceptions escape
every construct except `tryCatch`, whose handler runs when the body
raised. -/
def runStmt (fails : LibCall → Bool) (cond : String → Bool) : Stmt → RunResult
  | .assign _ c => if fails c then ⟨[c], some c⟩ else ⟨[c], none⟩
  | .ifElse g thn els => if cond g then runCalls fails thn else runCalls fails els
  | .forRange n body => seqPow (runCalls fails body) n
  | .tryCatch body handler =>
    let r := runCalls fails body
    match r.error with
    | none => r
    | some _ =>
      let h := runCalls fails handler
      ⟨r.trace ++ h.trace, h.error⟩

/-- Run a statement list top to bottom; an uncaught exception aborts the
rest of the script. -/
def runScript (fails : LibCall → Bool) (cond : String → Bool) : List Stmt → RunResult
  | [] => ⟨[], none⟩
  | s :: rest =>
    let r := runStmt fails cond s
    match r.error with
    | some _ => r
    | none =>
      let r2 := runScript fails cond rest
      ⟨r.trace ++ r2.trace, r2.error⟩

/-- A statement is a plain assignment (no branch, loop or handler). -/
def Stmt.isAssign : Stmt → Bool
  | .assign _ _ => true
  | _ => false

/-- A script is straight-line when every statement is a plain assignment. -/
def straightLine (p : List Stmt) : Bool := p.all Stmt.isAssign

/-- The library calls of the top-level assignments of a script, in source
order. -/
def scriptCalls (p : List Stmt) : List LibCall :=
  p.filterMap fun s =>
    match s with
    | .assign _ c => some c
    | _ => none

/-- Arguments of the `Bioseq.create_from_refgenome` call binding `DNA`
(training sequences): name `dna`, the reference genome, the training ROI,
`binsize=200`, `order=order`, `cache=True`. -/
def DNA_args : BioseqArgs :=
  { dsname := "dna", refgenome := REFGENOME, roi := ROI_TRAIN_FILE,
    binsize := 200, order := order, cache := some true }

/-- Arguments of the `Cover.create_from_bed` call binding `LABELS`
(training labels): name `peaks`, training ROI, the peak file,
`binsize=200`, `resolution=200`, `cache=True`, `storage='sparse'`. -/
def LABELS_args : CoverBedArgs :=
  { dsname := "peaks", roi := ROI_TRAIN_FILE, bedfiles := PEAK_FILE,
    binsize := 200, resolution := 200, cache := some true, storage := "sparse" }

/-- Arguments of the `Bioseq.create_from_refgenome` call binding
`DNA_TEST`: as for `DNA` but with the test ROI and no `cache` keyword. -/
def DNA_TEST_args : BioseqArgs :=
  { dsname := "dna", refgenome := REFGENOME, roi := ROI_TEST_FILE,
    binsize := 200, order := order, cache := none }

/-- Arguments of the `Cover.create_from_bed` call binding `LABELS_TEST`:
as for `LABELS` but with the test ROI and no `cache` keyword. -/
def LABELS_TEST_args : CoverBedArgs :=
  { dsname := "peaks", roi := ROI_TEST_FILE, bedfiles := PEAK_FILE,
    binsize := 200, resolution := 200, cache := none, storage := "sparse" }

/-- The keras model layers exactly as built in the notebook:
`Input((200 - order + 1, 1, pow(4, order)))`, then
`DnaConv2D(Conv2D(30, (21, 1), activation='relu'))`, then
`GlobalAveragePooling2D()`, then `Dense(1, activation='sigmoid')`. -/
def modelLayers : List Layer :=
  [ .inputLayer [200 - order + 1, 1, 4 ^ order],
    .dnaConv2D 30 21 1 .relu,
    .globalAveragePooling2D,
    .dense 1 .sigmoid ]

/-- Shape of the training DNA dataset as recorded in the notebook output of
the shape-printing cell: `training set: (7797, 198, 1, 64)`. -/
def DNA_shape : List Nat := [7797, 198, 1, 64]

/-- The executable statements of the notebook, in source order.  Pure
constant bindings (`order = 3` and the `resource_filename` path bindings)
are embedded as the definitions above; every remaining statement issues a
library call and is listed here. -/
def script : List Stmt :=
  [ .assign "" (.npRandomSeed 1234),
    .assign "" (.setEnv "JANGGU_OUTPUT" "/home/wkopp/janggu_examples"),
    .assign "DNA" (.bioseqCreateFromRefgenome DNA_args),
    .assign "LABELS" (.coverCreateFromBed LABELS_args true),
    .assign "DNA_TEST" (.bioseqCreateFromRefgenome DNA_TEST_args),
    .assign "LABELS_TEST" (.coverCreateFromBed LABELS_TEST_args true),
    .assign "" .printOut,
    .assign "" .printOut,
    .assign "model" (.modelBuild modelLayers),
    .assign "" (.modelCompile "adadelta" "binary_crossentropy" ["acc"]),
    .assign "" .modelSummary,
    .assign "hist" (.modelFit "DNA" "LABELS" 100),
    .assign "" .printOut,
    .assign "" .printOut,
    .assign "" .printOut,
    .assign "pred" (.modelPredict "DNA_TEST"),
    .assign "cov_pred" (.coverCreateFromArray "BindingProba" "pred" "LABELS_TEST.gindexer"),
    .assign "" (.exportToBigwig "cov_pred" (.envGet "JANGGU_OUTPUT")),
    .assign "" (.rocAucScore "LABELS_TEST[:]" "pred"),
    .assign "" .printOut ]

/-- The environment variable binding produced by a trace of library calls:
the value of the last `setEnv` for `key`, if any. -/
def envAfter (cs : List LibCall) (key : String) : Option String :=
  cs.foldl
    (fun acc c =>
      match c with
      | .setEnv k v => if k = key then some v else acc
      | _ => acc)
    none

/-- Whether a call loads a dataset (a janggu `Bioseq` or `Cover` loader). -/
def isDatasetLoad : LibCall → Bool
  | .bioseqCreateFromRefgenome _ => true
  | .coverCreateFromBed _ _ => true
  | _ => false

/-- Whether a call constructs, compiles, fits or applies the model. -/
def isModelCall : LibCall → Bool
  | .modelBuild _ => true
  | .modelCompile _ _ _ => true
  | .modelFit _ _ _ => true
  | .modelPredict _ => true
  | _ => false

/-- Whether a call modifies an environment variable. -/
def isSetEnv : LibCall → Bool
  | .setEnv _ _ => true
  | _ => false

/-- Whether a call writes a file (in this script, only the bigwig export
does; dataset caching is internal to the library loaders). -/
def isFileWrite : LibCall → Bool
  | .exportToBigwig _ _ => true
  | _ => false

/-- Whether a call is a `model.fit` call. -/
def isFit : LibCall → Bool
  | .modelFit _ _ _ => true
  | _ => false

/-- Whether a call is a `model.predict` call. -/
def isPredict : LibCall → Bool
  | .modelPredict _ => true
  | _ => false

/-- Whether a call is the predict, wrap-into-coverage, or bigwig-export
step. -/
def isPredictWrapExport : LibCall → Bool
  | .modelPredict _ => true
  | .coverCreateFromArray _ _ _ => true
  | .exportToBigwig _ _ => true
  | _ => false

/-- Whether a call is a `roc_auc_score` call. -/
def isRoc : LibCall → Bool
  | .rocAucScore _ _ => true
  | _ => false

/-- Step number of the seven-step outline of the spec: 1 set the output
environment variable, 2 load the training datasets, 3 load the test
datasets, 4 construct and compile the model, 5 fit, 6 predict, wrap and
export, 7 compute the AUC score.  Calls outside the outline (the random
seed, diagnostic prints, the model summary) map to `none`. -/
def stepOf : LibCall → Option Nat
  | .setEnv _ _ => some 1
  | .bioseqCreateFromRefgenome a => some (if a.roi = ROI_TRAIN_FILE then 2 else 3)
  | .coverCreateFromBed a _ => some (if a.roi = ROI_TRAIN_FILE then 2 else 3)
  | .modelBuild _ => some 4
  | .modelCompile _ _ _ => some 4
  | .modelFit _ _ _ => some 5
  | .modelPredict _ => some 6
  | .coverCreateFromArray _ _ _ => some 6
  | .exportToBigwig _ _ => some 6
  | .rocAucScore _ _ => some 7
  | _ => none

/-- The variable a statement assigns to, when it is an assignment to a
nonempty name. -/
def Stmt.assignsTo (s : Stmt) (v : String) : Bool :=
  match s with
  | .assign w _ => w = v
  | _ => false

/-- The layer list of a call, when it is the model-construction call. -/
def layersOf : LibCall → Option (List Layer)
  | .modelBuild ls => some ls
  | _ => none

/-- On a straight-line script the interpreter issues the calls in source
order up to and including the first failing one, and reports that call as
the uncaught error. -/
theorem straight_run (p : List Stmt) (hp : straightLine p = true)
    (fails : LibCall → Bool) (cond : String → Bool) :
    (runScript fails cond p).error = (scriptCalls p).find? fails ∧
    (runScript fails cond p).trace =
      (scriptCalls p).takeWhile (fun c => !fails c) ++
        ((scriptCalls p).dropWhile (fun c => !fails c)).take 1 := by
  induction p with
  | nil => simp [runScript, scriptCalls]
  | cons s rest ih =>
    have hp' : s.isAssign = true ∧ straightLine rest = true := by
      have h := hp
      simp only [straightLine, List.all_cons, Bool.and_eq_true] at h
      exact h
    have hs : s.isAssign = true := hp'.1
    match s, hs with
    | .assign v c, _ =>
      have hrest : straightLine rest = true := hp'.2
      have ihr := ih hrest
      by_cases hc : fails c = true
      · simp [runScript, runStmt, scriptCalls, hc, List.find?, List.takeWhile,
          List.dropWhile]
      · have hc' : fails c = false := by
          cases h : fails c
          · rfl
          · exact absurd h hc
        simp only [runScript, runStmt, hc', if_false, scriptCalls,
          List.filterMap_cons, List.find?, List.takeWhile, List.dropWhile,
          Bool.not_false, cond_true, cond_false] at *
        constructor
        · exact ihr.1
        · simp [ihr.2]

/-- C1: the model is exactly one `DnaConv2D`-wrapped `Conv2D` (30 filters,
kernel `(21, 1)`, relu) on the input, then `GlobalAveragePooling2D`, then a
single `Dense(1, sigmoid)`, and no other layers; the input shape
`(200 - order + 1, 1, 4^order)` equals `(198, 1, 64)` for `order = 3` and
matches the per-sample shape of the DNA training dataset; the script builds
exactly this model. -/
theorem C1_model_architecture :
    modelLayers =
      [ Layer.inputLayer [198, 1, 64],
        Layer.dnaConv2D 30 21 1 Activation.relu,
        Layer.globalAveragePooling2D,
        Layer.dense 1 Activation.sigmoid ] ∧
    [200 - order + 1, 1, 4 ^ order] = [198, 1, 64] ∧
    DNA_shape.tail = [198, 1, 64] ∧
    (scriptCalls script).filterMap layersOf = [modelLayers] := by
  decide

/-- C2: after fitting, the script calls `model.predict` exactly once, on
the test DNA dataset; it wraps the result as
`Cover.create_from_array('BindingProba', pred, LABELS_TEST.gindexer)` and
exports that container via `export_to_bigwig`, in this order and exactly
once each. -/
theorem C2_predict_wrap_export :
    (scriptCalls script).filter isPredictWrapExport =
      [ LibCall.modelPredict "DNA_TEST",
        LibCall.coverCreateFromArray "BindingProba" "pred" "LABELS_TEST.gindexer",
        LibCall.exportToBigwig "cov_pred" (StrExpr.envGet "JANGGU_OUTPUT") ] ∧
    Stmt.assign "pred" (LibCall.modelPredict "DNA_TEST") ∈ script ∧
    Stmt.assign "cov_pred"
        (LibCall.coverCreateFromArray "BindingProba" "pred" "LABELS_TEST.gindexer")
      ∈ script := by
  decide

/-- C3: the training sequence dataset is loaded by
`Bioseq.create_from_refgenome` over the training ROI with `binsize=200`,
`order=3` and `cache=True`, and the training labels by
`Cover.create_from_bed` over the training ROI with `binsize=200`,
`resolution=200`, `cache=True` and sparse storage, wrapped in
`ReduceDim`. -/
theorem C3_training_loaders :
    DNA_args =
      { dsname := "dna", refgenome := REFGENOME, roi := ROI_TRAIN_FILE,
        binsize := 200, order := 3, cache := some true } ∧
    LABELS_args =
      { dsname := "peaks", roi := ROI_TRAIN_FILE, bedfiles := PEAK_FILE,
        binsize := 200, resolution := 200, cache := some true,
        storage := "sparse" } ∧
    Stmt.assign "DNA" (LibCall.bioseqCreateFromRefgenome DNA_args) ∈ script ∧
    Stmt.assign "LABELS" (LibCall.coverCreateFromBed LABELS_args true) ∈ script := by
  decide

/-- C4 counterexample: the test loading calls do NOT differ from the
training calls only in the region-of-interest file: the training calls
pass `cache=True` and the test calls omit the `cache` keyword. -/
theorem C4_counterexample :
    ¬ (DNA_TEST_args = { DNA_args with roi := ROI_TEST_FILE } ∧
       LABELS_TEST_args = { LABELS_args with roi := ROI_TEST_FILE }) := by
  decide

/-- C4 (amended): the test sequence and label datasets are loaded with the
same reference genome, peak file, binsize, order, resolution, storage and
`ReduceDim` wrapping as the training datasets, differing from the training
loading calls only in the region-of-interest file and in that the `cache`
keyword is not passed for the test loaders. -/
theorem C4_test_loaders :
    DNA_TEST_args = { DNA_args with roi := ROI_TEST_FILE, cache := none } ∧
    LABELS_TEST_args = { LABELS_args with roi := ROI_TEST_FILE, cache := none } ∧
    Stmt.assign "DNA_TEST" (LibCall.bioseqCreateFromRefgenome DNA_TEST_args)
      ∈ script ∧
    Stmt.assign "LABELS_TEST" (LibCall.coverCreateFromBed LABELS_TEST_args true)
      ∈ script := by
  decide

/-- C5: the model is fitted by a single `model.fit(DNA, LABELS,
epochs=100)` call on the whole in-memory training datasets, and no other
fitting call occurs in the script. -/
theorem C5_single_fit :
    (scriptCalls script).filter isFit = [LibCall.modelFit "DNA" "LABELS" 100] := by
  decide

/-- C6: the AUC is computed as `roc_auc_score(LABELS_TEST[:], pred)` where
`pred` is assigned exactly once in the whole script, by the
`model.predict(DNA_TEST)` call whose result was wrapped and exported, so
the scored predictions are the exported ones, not recomputed. -/
theorem C6_auc_on_exported_pred :
    (scriptCalls script).filter isRoc =
      [LibCall.rocAucScore "LABELS_TEST[:]" "pred"] ∧
    script.filter (fun s => s.assignsTo "pred") =
      [Stmt.assign "pred" (LibCall.modelPredict "DNA_TEST")] ∧
    LibCall.coverCreateFromArray "BindingProba" "pred" "LABELS_TEST.gindexer"
      ∈ scriptCalls script := by
  decide

/-- C7: the script performs exactly one environment modification, setting
`JANGGU_OUTPUT` before any dataset loading or model call; its only
explicit file write is the bigwig export, whose `output_dir` argument is
the lookup of that same variable, which at that point still holds the
value the script set. -/
theorem C7_output_boundary :
    (scriptCalls script).filter isSetEnv =
      [LibCall.setEnv "JANGGU_OUTPUT" "/home/wkopp/janggu_examples"] ∧
    ((scriptCalls script).takeWhile (fun c => !isSetEnv c)).all
      (fun c => !(isDatasetLoad c || isModelCall c)) = true ∧
    (scriptCalls script).filter isFileWrite =
      [LibCall.exportToBigwig "cov_pred" (StrExpr.envGet "JANGGU_OUTPUT")] ∧
    envAfter ((scriptCalls script).takeWhile (fun c => !isFileWrite c))
      "JANGGU_OUTPUT" = some "/home/wkopp/janggu_examples" := by
  decide

/-- C8: the script contains no exception handling, branching or looping,
and for every oracle of failing library calls the uncaught error of a run
is exactly the first failing call (propagated unmodified) and the trace
stops at that call: no step after the failing call is executed. -/
theorem C8_error_propagation :
    straightLine script = true ∧
    ∀ (fails : LibCall → Bool) (cond : String → Bool),
      (runScript fails cond script).error = (scriptCalls script).find? fails ∧
      (runScript fails cond script).trace =
        (scriptCalls script).takeWhile (fun c => !fails c) ++
          ((scriptCalls script).dropWhile (fun c => !fails c)).take 1 := by
  exact ⟨by decide, fun fails cond => straight_run script (by decide) fails cond⟩

/-- C9: the script is straight-line (no branch, loop or handler of its
own); on a failure-free run it issues exactly its source-order call list
whatever the condition oracle, and that call list follows the fixed
seven-step outline: set the output variable, load the training datasets,
load the test datasets, construct and compile the model, fit, predict and
wrap and export, compute the AUC score. -/
theorem C9_linear_script :
    straightLine script = true ∧
    (∀ cond : String → Bool,
      (runScript (fun _ => false) cond script).trace = scriptCalls script) ∧
    (scriptCalls script).filterMap stepOf = [1, 2, 2, 3, 3, 4, 4, 5, 6, 6, 6, 7] := by
  exact ⟨by decide, fun cond => rfl, by decide⟩

/-- C10: the NumPy random seed is fixed to 1234 before any dataset
loading, model construction or fitting call, and the run of the script is
deterministic: for any two condition oracles the failure-free runs issue
the identical sequence of library calls with identical arguments. -/
theorem C10_seed_and_determinism :
    LibCall.npRandomSeed 1234 ∈
      (scriptCalls script).takeWhile (fun c => !(isDatasetLoad c || isModelCall c)) ∧
    ∀ cond cond2 : String → Bool,
      runScript (fun _ => false) cond script =
        runScript (fun _ => false) cond2 script := by
  exact ⟨by decide, fun cond cond2 => rfl⟩

end JangguConvnet
